import Mathlib

/-!
Shallow embedding of `src/countdown_bot.py` (a Telegram countdown / hydration
reminder bot) and proofs about it.

Modelling conventions:
  - Times are naive timestamps measured in whole seconds (an `Int`); a stored
    target date denotes midnight of that calendar date.  Python's
    `(target - now).days` on `timedelta` values is floor division of the
    signed difference in seconds by 86400, embedded as `Int.fdiv`.
  - Python `dict`s keyed by user id are embedded as insertion-ordered
    association lists (`user_dates`, `user_water_info`), except the hydration
    counter store, which the code only ever reads through `.get(user_id, 0)`
    and writes pointwise, and is therefore embedded as a total function with
    default 0.
  - Python floats are embedded as rationals; `float(str)` is embedded for
    finite decimal literals (optional sign, digits, optional fractional part,
    optional decimal exponent).
  - Replies and push messages are structured values (`Msg`) carrying the
    numbers and dates that the Python `f`-strings interpolate; the `:.1f`
    percentage is carried as its value in tenths of a percent, rounded to
    nearest with ties to even as `%.1f` formatting does.
-/

abbrev UserId := Int

/-- A calendar date as produced by `datetime.strptime(date_str, '%Y-%m-%d')`
(the time-of-day part is always midnight and is dropped). -/
structure Date where
  year : Nat
  month : Nat
  day : Nat
deriving DecidableEq, Repr

/-- Leap-year rule used by `datetime` (proleptic Gregorian). -/
def isLeapYear (y : Nat) : Bool :=
  y % 4 = 0 ∧ (y % 100 ≠ 0 ∨ y % 400 = 0)

/-- `datetime`'s days-in-month table (for months 1..12). -/
def daysInMonth (y m : Nat) : Nat :=
  if m = 2 then (if isLeapYear y then 29 else 28)
  else if m = 4 ∨ m = 6 ∨ m = 9 ∨ m = 11 then 30
  else 31

/-- Days in all years before year `y` (so `daysBeforeYear 1 = 0`), as in
`datetime.date.toordinal`. -/
def daysBeforeYear (y : Nat) : Nat :=
  365 * (y - 1) + (y - 1) / 4 - (y - 1) / 100 + (y - 1) / 400

/-- Days in the months of year `y` strictly before month `m`. -/
def daysBeforeMonth (y m : Nat) : Nat :=
  (List.range (m - 1)).foldl (fun acc i => acc + daysInMonth y (i + 1)) 0

/-- `datetime.date.toordinal`: day number with 0001-01-01 as day 1. -/
def toordinal (d : Date) : Nat :=
  daysBeforeYear d.year + daysBeforeMonth d.year d.month + d.day

/-- Timestamp (seconds) of midnight of date `d` on the naive time axis. -/
def dateTs (d : Date) : Int :=
  86400 * (toordinal d : Int)

def digitVal (c : Char) : Nat := c.toNat - '0'.toNat

/-- The `%m` directive of CPython `_strptime`: regex
`1[0-2]|0[1-9]|[1-9]`, alternatives tried in this order.  Returns the month
value and the unconsumed input. -/
def parseMonth : List Char → Option (Nat × List Char)
  | '1' :: c :: rest =>
      if c = '0' ∨ c = '1' ∨ c = '2' then some (10 + digitVal c, rest)
      else some (1, c :: rest)
  | '0' :: c :: rest =>
      if '1' ≤ c ∧ c ≤ '9' then some (digitVal c, rest) else none
  | c :: rest =>
      if '1' ≤ c ∧ c ≤ '9' then some (digitVal c, rest) else none
  | [] => none

/-- The `%d` directive of CPython `_strptime`: regex
`3[01]|[12]\d|0[1-9]|[1-9]`, alternatives tried in this order. -/
def parseDay : List Char → Option (Nat × List Char)
  | '3' :: c :: rest =>
      if c = '0' ∨ c = '1' then some (30 + digitVal c, rest)
      else some (3, c :: rest)
  | c1 :: c2 :: rest =>
      if (c1 = '1' ∨ c1 = '2') ∧ c2.isDigit then
        some (10 * digitVal c1 + digitVal c2, rest)
      else if c1 = '0' ∧ '1' ≤ c2 ∧ c2 ≤ '9' then some (digitVal c2, rest)
      else if '1' ≤ c1 ∧ c1 ≤ '9' then some (digitVal c1, c2 :: rest)
      else none
  | c :: rest =>
      if '1' ≤ c ∧ c ≤ '9' then some (digitVal c, rest) else none
  | [] => none

/-- `datetime.strptime(s, '%Y-%m-%d')`: `%Y` is exactly four digits
(`\d\d\d\d`), the dashes are literal, the whole string must be consumed
(`unconverted data remains` otherwise), and the resulting triple must be a
real calendar date accepted by the `datetime` constructor (year at least 1,
day at most the month length).  Note `%m`/`%d` accept one-digit values. -/
def strptimeYMD (s : String) : Option Date :=
  match s.data with
  | y1 :: y2 :: y3 :: y4 :: '-' :: rest =>
      if y1.isDigit ∧ y2.isDigit ∧ y3.isDigit ∧ y4.isDigit then
        let y := 1000 * digitVal y1 + 100 * digitVal y2 + 10 * digitVal y3 + digitVal y4
        match parseMonth rest with
        | some (m, rest2) =>
            match rest2 with
            | '-' :: rest3 =>
                match parseDay rest3 with
                | some (d, []) =>
                    if 1 ≤ y ∧ d ≤ daysInMonth y m then some ⟨y, m, d⟩ else none
                | _ => none
            | _ => none
        | none => none
      else none
  | _ => none

def digitsToNat (ds : List Char) : Nat :=
  ds.foldl (fun a c => 10 * a + digitVal c) 0

/-- The syntactic pieces of a decimal float literal: sign, all mantissa
digits read as one integer, how many of them were after the point, and the
signed decimal exponent. -/
structure FloatParts where
  neg : Bool
  mantissa : Nat
  fracLen : Nat
  exp : Int
deriving DecidableEq, Repr

/-- Parsing stage of Python `float(s)` for finite decimal literals: optional
sign, then digits with an optional fractional part (at least one digit
overall; `1.` and `.5` are accepted, `.` is not), then an optional decimal
exponent; the whole string must be consumed.  (`inf`/`nan`, underscores and
surrounding whitespace are not modelled.) -/
def pyFloatParse (s : String) : Option FloatParts :=
  let sp : Bool × List Char := match s.data with
    | '-' :: t => (true, t)
    | '+' :: t => (false, t)
    | t => (false, t)
  let ip := List.span Char.isDigit sp.2
  let fr : Option (List Char) × List Char := match ip.2 with
    | '.' :: t => (some (List.span Char.isDigit t).1, (List.span Char.isDigit t).2)
    | t => (none, t)
  let fd := match fr.1 with
    | some f => f
    | none => []
  if ip.1.isEmpty && fd.isEmpty then none
  else
    let mant := digitsToNat ip.1 * 10 ^ fd.length + digitsToNat fd
    match fr.2 with
    | [] => some ⟨sp.1, mant, fd.length, 0⟩
    | e :: t =>
        if e = 'e' ∨ e = 'E' then
          let es : Bool × List Char := match t with
            | '-' :: t2 => (true, t2)
            | '+' :: t2 => (false, t2)
            | t2 => (false, t2)
          let ed := List.span Char.isDigit es.2
          if ed.1.isEmpty || !ed.2.isEmpty then none
          else
            let k : Int := digitsToNat ed.1
            some ⟨sp.1, mant, fd.length, if es.1 then -k else k⟩
        else none

/-- The rational value denoted by a parsed float literal (exact; the
embedding does not model rounding to binary floating point). -/
def partsVal (p : FloatParts) : ℚ :=
  let m : ℚ := (p.mantissa : ℚ) / (10 : ℚ) ^ p.fracLen
  let sm : ℚ := if p.neg then -m else m
  if 0 ≤ p.exp then sm * (10 : ℚ) ^ p.exp.toNat
  else sm / (10 : ℚ) ^ (-p.exp).toNat

/-- Python `float(s)` for finite decimal literals, as an exact rational. -/
def pyFloat (s : String) : Option ℚ :=
  (pyFloatParse s).map partsVal

/-- One entry of `user_water_info`: the dict
`{'height': h, 'weight': w, 'daily_target': w * 35}` stored by `sethealth`. -/
structure Profile where
  height : ℚ
  weight : ℚ
  daily_target : ℚ
deriving DecidableEq, Repr

/-- The replies and push messages the bot produces, as structured values;
each constructor corresponds to one `reply_text`/`send_message` call site and
carries the data interpolated into that message. -/
inductive Msg where
  | greeting
  | helpText
  | askDateArg
  | invalidDate
  | dateSet (s : String)
  | setDateFirst
  | daysRemaining (n : Int) (d : Date)
  | datePassed
  | askHealthArgs
  | invalidHealthFormat
  | invalidRange
  | healthSet (h w target : ℚ)
  | setHealthFirst
  | waterLogged (current : Int) (target : ℚ) (pctTenths : Int)
  | dailyRemind (n : Int) (d : Date)
  | dailyPassed
  | waterRemind (current : Int) (remaining : ℚ)
deriving DecidableEq, Repr

/-- The three module-level stores `user_dates`, `user_water_info`,
`user_water_counts`. -/
structure BotState where
  user_dates : List (UserId × Date)
  user_water_info : List (UserId × Profile)
  user_water_counts : UserId → Int

def initState : BotState := ⟨[], [], fun _ => 0⟩

/-- Python dict lookup (`k in d` / `d[k]`) on an association list. -/
def dictGet {α : Type} (k : UserId) : List (UserId × α) → Option α
  | [] => none
  | p :: t => if p.1 = k then some p.2 else dictGet k t

/-- Python dict assignment `d[k] = v`: overwrite in place, else append. -/
def dictSet {α : Type} (k : UserId) (v : α) : List (UserId × α) → List (UserId × α)
  | [] => [(k, v)]
  | p :: t => if p.1 = k then (k, v) :: t else p :: dictSet k v t

/-- `%.1f` formatting of a percentage value: the displayed number in tenths,
rounded to nearest with ties to even. -/
def formatOneDecimal (q : ℚ) : Int :=
  let x := q * 10
  let f := ⌊x⌋
  let r := x - (f : ℚ)
  if r < 1 / 2 then f
  else if 1 / 2 < r then f + 1
  else if f % 2 = 0 then f else f + 1

/-- `start` handler: static greeting, no side effects. -/
def start : Msg := Msg.greeting

/-- `help_command` handler: static help text, no side effects. -/
def help_command : Msg := Msg.helpText

/-- `setdate` handler (src/countdown_bot.py lines 24-37): with no argument
asks for one; otherwise parses `args[0]` with `strptime('%Y-%m-%d')`, on
success stores the date under the user's id and confirms echoing the input
string, on `ValueError` replies with the invalid-format message and leaves
the store unchanged. -/
def setdate (u : UserId) (args : List String) (st : BotState) : BotState × Msg :=
  match args with
  | [] => (st, Msg.askDateArg)
  | s :: _ =>
      match strptimeYMD s with
      | some d => ({ st with user_dates := dictSet u d st.user_dates }, Msg.dateSet s)
      | none => (st, Msg.invalidDate)

/-- `countdown` handler (lines 39-52): prompt if no stored date, otherwise
`remaining = target_date - now` and reply by the sign of `remaining.days`
(floor of the difference in days). -/
def countdown (u : UserId) (now : Int) (st : BotState) : Msg :=
  match dictGet u st.user_dates with
  | none => Msg.setDateFirst
  | some d =>
      let days := Int.fdiv (dateTs d - now) 86400
      if 0 ≤ days then Msg.daysRemaining days d else Msg.datePassed

/-- `sethealth` handler (lines 126-155): requires exactly two arguments, both
parsed with `float`; a parse failure is caught as `ValueError`; the height
must lie in [100,250] and the weight in [30,200]; on success stores
`{height, weight, daily_target = weight * 35}` and resets the user's water
count to 0. -/
def sethealth (u : UserId) (args : List String) (st : BotState) : BotState × Msg :=
  match args with
  | [a, b] =>
      match pyFloat a, pyFloat b with
      | some h, some w =>
          if 100 ≤ h ∧ h ≤ 250 ∧ 30 ≤ w ∧ w ≤ 200 then
            ({ st with
                user_water_info := dictSet u ⟨h, w, w * 35⟩ st.user_water_info,
                user_water_counts := fun v => if v = u then 0 else st.user_water_counts v },
             Msg.healthSet h w (w * 35))
          else (st, Msg.invalidRange)
      | _, _ => (st, Msg.invalidHealthFormat)
  | _ => (st, Msg.askHealthArgs)

/-- `water` handler (lines 157-171): prerequisite error if the user has no
profile; otherwise `counts[u] = counts.get(u, 0) + 250` and a progress reply
with the new current amount, the target, and the percentage
`current / target * 100` formatted with `%.1f`. -/
def water (u : UserId) (st : BotState) : BotState × Msg :=
  match dictGet u st.user_water_info with
  | none => (st, Msg.setHealthFirst)
  | some info =>
      let current := st.user_water_counts u + 250
      ({ st with user_water_counts := fun v => if v = u then current else st.user_water_counts v },
       Msg.waterLogged current info.daily_target
         (formatOneDecimal ((current : ℚ) / info.daily_target * 100)))

/-- The countdown phrasing used by the daily reminder job, determined by the
sign of `remaining.days` exactly as in `countdown`. -/
def reminderMsg (d : Date) (now : Int) : Msg :=
  let days := Int.fdiv (dateTs d - now) 86400
  if 0 ≤ days then Msg.dailyRemind days d else Msg.dailyPassed

/-- `daily_reminder` job (lines 103-124): iterates `user_dates`; for each
user attempts to send the countdown phrasing for that user's date; a raised
delivery failure (`fails u`) is caught inside the loop body and logged, so
the iteration continues.  Result: (delivered messages, logged failures), in
store order.  The job mutates no store. -/
def daily_reminder (now : Int) (fails : UserId → Bool) (st : BotState) :
    List (UserId × Msg) × List UserId :=
  (st.user_dates.filterMap fun p =>
     if fails p.1 then none else some (p.1, reminderMsg p.2 now),
   st.user_dates.filterMap fun p =>
     if fails p.1 then some p.1 else none)

/-- `water_reminder` job (lines 173-190): iterates `user_water_info`; for
each user with `counts.get(u, 0) < daily_target` attempts to send a message
with the current amount and `target - current` remaining; users at or above
target are skipped (no send, hence no possible delivery failure); a delivery
failure is caught and logged per user.  The job mutates no store. -/
def water_reminder (fails : UserId → Bool) (st : BotState) :
    List (UserId × Msg) × List UserId :=
  (st.user_water_info.filterMap fun p =>
     let current := st.user_water_counts p.1
     if (current : ℚ) < p.2.daily_target then
       if fails p.1 then none
       else some (p.1, Msg.waterRemind current (p.2.daily_target - (current : ℚ)))
     else none,
   st.user_water_info.filterMap fun p =>
     if (st.user_water_counts p.1 : ℚ) < p.2.daily_target then
       if fails p.1 then some p.1 else none
     else none)

/-- Result of one request to the webhook route: HTTP status, response body,
and how many times `_bot_app.process_update` was invoked. -/
structure WebhookResult where
  status : Nat
  body : String
  dispatched : Nat
deriving DecidableEq, Repr

/-- `handle_webhook` (lines 228-239): compares the
`X-Telegram-Bot-Api-Secret-Token` header (`none` when absent) against
`os.getenv("BOT_TOKEN")` (`none` when unset) with Python `!=`; on mismatch
returns 403 without touching the body; otherwise deserializes the body (a
valid update payload is `some ()`; an invalid body raises, surfacing as an
HTTP 500 with no dispatch), hands the update to the dispatcher once, and
returns an empty 200. -/
def handle_webhook (token : Option String) (header : Option String)
    (payload : Option Unit) : WebhookResult :=
  if header ≠ token then ⟨403, "", 0⟩
  else
    match payload with
    | some _ => ⟨200, "", 1⟩
    | none => ⟨500, "", 0⟩

/-- One externally triggered event: a dispatched command (with the simulated
clock where the handler reads it) or a scheduled job firing (with the set of
users whose delivery raises). -/
inductive Op where
  | startCmd (u : UserId)
  | helpCmd (u : UserId)
  | setdateCmd (u : UserId) (args : List String)
  | countdownCmd (u : UserId) (now : Int)
  | sethealthCmd (u : UserId) (args : List String)
  | waterCmd (u : UserId)
  | dailyJob (now : Int) (fails : UserId → Bool)
  | waterJob (fails : UserId → Bool)

/-- State transition of one event: only `setdate`, `sethealth` and `water`
assign to any store; every other handler and both jobs only read. -/
def step (st : BotState) (op : Op) : BotState :=
  match op with
  | .startCmd _ => st
  | .helpCmd _ => st
  | .setdateCmd u args => (setdate u args st).1
  | .countdownCmd _ _ => st
  | .sethealthCmd u args => (sethealth u args st).1
  | .waterCmd u => (water u st).1
  | .dailyJob _ _ => st
  | .waterJob _ => st

def run (st : BotState) (ops : List Op) : BotState :=
  ops.foldl step st

/-- The success condition of `sethealth` for a given argument list: exactly
two arguments, both parse as floats, and both range checks pass. -/
def sethealthOk (args : List String) : Bool :=
  match args with
  | [a, b] =>
      match pyFloat a, pyFloat b with
      | some h, some w => decide (100 ≤ h ∧ h ≤ 250 ∧ 30 ≤ w ∧ w ≤ 200)
      | _, _ => false
  | _ => false

/-! ### Concrete scenario states (used by witnesses) -/

/-- One user with the profile stored by `/sethealth 170 65` and an empty
water count. -/
def demoC3 : BotState := ⟨[], [(1, ⟨170, 65, 2275⟩)], fun _ => 0⟩

/-- `demoC3` after eight `/water` invocations by user 1. -/
def demoC3after8 : BotState := run demoC3 (List.replicate 8 (Op.waterCmd 1))

/-- Two users with stored target dates: user 1's is 10 days after
2025-01-11, user 2's is 3 days before it. -/
def demoC7 : BotState := ⟨[(1, ⟨2025, 1, 21⟩), (2, ⟨2025, 1, 8⟩)], [], fun _ => 0⟩

/-- Delivery fails exactly for user 1. -/
def failsOnly1 : UserId → Bool := fun v => decide (v = 1)

/-- Two users with the same 2275 ml target: user 1 at 2250 ml (below), user
2 at 2275 ml (met). -/
def demoC8 : BotState :=
  ⟨[], [(1, ⟨170, 65, 2275⟩), (2, ⟨170, 65, 2275⟩)], fun v => if v = 1 then 2250 else 2275⟩

/-- Delivery never fails. -/
def failsNone : UserId → Bool := fun _ => false

/-! ### Helper lemmas -/

theorem dictGet_dictSet_self {α : Type} (u : UserId) (v : α) (l : List (UserId × α)) :
    dictGet u (dictSet u v l) = some v := by
  induction l with
  | nil => simp [dictGet, dictSet]
  | cons p t ih =>
      by_cases h : p.1 = u
      · simp [dictGet, dictSet, h]
      · simp [dictGet, dictSet, h, ih]

theorem assoc_value_unique {α : Type} {l : List (UserId × α)}
    (hnd : (l.map Prod.fst).Nodup) {u : UserId} {a b : α}
    (ha : (u, a) ∈ l) (hb : (u, b) ∈ l) : a = b := by
  induction l with
  | nil => cases ha
  | cons p t ih =>
      rw [List.map_cons, List.nodup_cons] at hnd
      rcases List.mem_cons.mp ha with h1 | h1
      · rcases List.mem_cons.mp hb with h2 | h2
        · rw [← h1] at h2
          exact (((Prod.mk.injEq u b u a).mp h2).2).symm
        · exact absurd (List.mem_map.mpr ⟨(u, b), h2, by rw [← h1]⟩) hnd.1
      · rcases List.mem_cons.mp hb with h2 | h2
        · exact absurd (List.mem_map.mpr ⟨(u, a), h1, by rw [← h2]⟩) hnd.1
        · exact ih hnd.2 h1 h2

theorem setdate_fst_counts (u : UserId) (args : List String) (st : BotState) :
    (setdate u args st).1.user_water_counts = st.user_water_counts := by
  cases args with
  | nil => rfl
  | cons s t => cases h : strptimeYMD s <;> simp [setdate, h]

theorem setdate_fst_info (u : UserId) (args : List String) (st : BotState) :
    (setdate u args st).1.user_water_info = st.user_water_info := by
  cases args with
  | nil => rfl
  | cons s t => cases h : strptimeYMD s <;> simp [setdate, h]

/-! ### Claims -/

/-- C1: for every date string accepted by `strptime('%Y-%m-%d')`, running
`setdate` and then `countdown` for the same user against a simulated clock
`now` replies with `N` days remaining where `N` is the floor of
`(target - now)` in days when that floor is non-negative, and with the
date-has-passed reply when it is negative. -/
theorem setdate_then_countdown (u : UserId) (st : BotState) (s : String) (d : Date)
    (now : Int) (hs : strptimeYMD s = some d) :
    (0 ≤ Int.fdiv (dateTs d - now) 86400 →
      countdown u now (setdate u [s] st).1 =
        Msg.daysRemaining (Int.fdiv (dateTs d - now) 86400) d) ∧
    (Int.fdiv (dateTs d - now) 86400 < 0 →
      countdown u now (setdate u [s] st).1 = Msg.datePassed) := by
  have h1 : (setdate u [s] st).1 = { st with user_dates := dictSet u d st.user_dates } := by
    simp [setdate, hs]
  rw [h1]
  simp only [countdown, dictGet_dictSet_self]
  constructor
  · intro h; rw [if_pos h]
  · intro h; rw [if_neg (not_le.mpr h)]

theorem setdate_then_countdown_witness :
    strptimeYMD "2025-12-31" = some ⟨2025, 12, 31⟩ ∧
    countdown 7 (dateTs ⟨2025, 12, 21⟩) (setdate 7 ["2025-12-31"] initState).1 =
      Msg.daysRemaining 10 ⟨2025, 12, 31⟩ ∧
    countdown 7 (dateTs ⟨2026, 1, 3⟩) (setdate 7 ["2025-12-31"] initState).1 =
      Msg.datePassed := by
  refine ⟨by decide, ?_, ?_⟩
  · exact (setdate_then_countdown 7 initState "2025-12-31" ⟨2025, 12, 31⟩
      (dateTs ⟨2025, 12, 21⟩) (by decide)).1 (by decide)
  · exact (setdate_then_countdown 7 initState "2025-12-31" ⟨2025, 12, 31⟩
      (dateTs ⟨2026, 1, 3⟩) (by decide)).2 (by decide)

/-- C2: for parseable height in [100,250] and weight in [30,200], `sethealth`
stores a profile whose daily target is `weight * 35`, resets the invoking
user's water counter to 0 (leaving other users' counters and the date store
untouched), and confirms with the computed target. -/
theorem sethealth_stores_profile (u : UserId) (st : BotState) (a b : String) (h w : ℚ)
    (ha : pyFloat a = some h) (hb : pyFloat b = some w)
    (h1 : 100 ≤ h) (h2 : h ≤ 250) (h3 : 30 ≤ w) (h4 : w ≤ 200) :
    dictGet u (sethealth u [a, b] st).1.user_water_info = some ⟨h, w, w * 35⟩ ∧
    (sethealth u [a, b] st).1.user_water_counts u = 0 ∧
    (∀ v, v ≠ u → (sethealth u [a, b] st).1.user_water_counts v = st.user_water_counts v) ∧
    (sethealth u [a, b] st).1.user_dates = st.user_dates ∧
    (sethealth u [a, b] st).2 = Msg.healthSet h w (w * 35) := by
  have hcond : 100 ≤ h ∧ h ≤ 250 ∧ 30 ≤ w ∧ w ≤ 200 := ⟨h1, h2, h3, h4⟩
  have hres : sethealth u [a, b] st =
      ({ st with
          user_water_info := dictSet u ⟨h, w, w * 35⟩ st.user_water_info,
          user_water_counts := fun v => if v = u then 0 else st.user_water_counts v },
       Msg.healthSet h w (w * 35)) := by
    simp only [sethealth, ha, hb]
    rw [if_pos hcond]
  rw [hres]
  refine ⟨dictGet_dictSet_self u _ _, by simp, ?_, rfl, rfl⟩
  intro v hv
  simp [hv]

theorem pyFloat_eq_of_parse (s : String) (p : FloatParts)
    (h : pyFloatParse s = some p) : pyFloat s = some (partsVal p) := by
  simp [pyFloat, h]

theorem pyFloat_none_of_parse (s : String) (h : pyFloatParse s = none) :
    pyFloat s = none := by
  simp [pyFloat, h]

theorem sethealth_stores_profile_witness :
    pyFloat "170" = some 170 ∧ pyFloat "65" = some 65 ∧
    dictGet 1 (sethealth 1 ["170", "65"] initState).1.user_water_info =
      some ⟨170, 65, 2275⟩ ∧
    (sethealth 1 ["170", "65"] initState).1.user_water_counts 1 = 0 ∧
    (sethealth 1 ["170", "65"] initState).2 = Msg.healthSet 170 65 2275 := by
  have ha : pyFloat "170" = some 170 :=
    (pyFloat_eq_of_parse "170" ⟨false, 170, 0, 0⟩ (by decide)).trans
      (by norm_num [partsVal])
  have hb : pyFloat "65" = some 65 :=
    (pyFloat_eq_of_parse "65" ⟨false, 65, 0, 0⟩ (by decide)).trans
      (by norm_num [partsVal])
  have h := sethealth_stores_profile 1 initState "170" "65" 170 65 ha hb
    (by norm_num) (by norm_num) (by norm_num) (by norm_num)
  have h35 : (65 : ℚ) * 35 = 2275 := by norm_num
  rw [h35] at h
  exact ⟨ha, hb, h.1, h.2.1, h.2.2.2.2⟩

theorem formatOneDecimal_eq_of_bounds (q : ℚ) (n : Int)
    (h1 : (n : ℚ) ≤ q * 10) (h2 : q * 10 < (n : ℚ) + 1)
    (h3 : q * 10 - (n : ℚ) < 1 / 2) :
    formatOneDecimal q = n := by
  have hf : ⌊q * 10⌋ = n := Int.floor_eq_iff.mpr ⟨h1, h2⟩
  simp only [formatOneDecimal, hf]
  rw [if_pos h3]

/-- C3: `water` fails with a prerequisite error and mutates nothing when the
user has no stored profile; otherwise it adds exactly 250 to that user's
counter (no other user's counter, and no other store, changes) and replies
with the new current amount, the target, and `current / target * 100`
formatted to one decimal place. -/
theorem water_requires_profile_and_adds_250 (u : UserId) (st : BotState) :
    (dictGet u st.user_water_info = none → water u st = (st, Msg.setHealthFirst)) ∧
    (∀ info, dictGet u st.user_water_info = some info →
      (water u st).1.user_water_counts u = st.user_water_counts u + 250 ∧
      (∀ v, v ≠ u → (water u st).1.user_water_counts v = st.user_water_counts v) ∧
      (water u st).1.user_dates = st.user_dates ∧
      (water u st).1.user_water_info = st.user_water_info ∧
      (water u st).2 = Msg.waterLogged (st.user_water_counts u + 250) info.daily_target
        (formatOneDecimal (((st.user_water_counts u + 250 : Int) : ℚ) /
          info.daily_target * 100))) := by
  constructor
  · intro hn
    simp [water, hn]
  · intro info hs
    have hres : water u st =
        ({ st with user_water_counts :=
            fun v => if v = u then st.user_water_counts u + 250 else st.user_water_counts v },
         Msg.waterLogged (st.user_water_counts u + 250) info.daily_target
           (formatOneDecimal (((st.user_water_counts u + 250 : Int) : ℚ) /
             info.daily_target * 100))) := by
      simp only [water, hs]
    rw [hres]
    refine ⟨by simp, ?_, rfl, rfl, rfl⟩
    intro v hv
    simp [hv]

theorem water_requires_profile_and_adds_250_witness :
    water 2 initState = (initState, Msg.setHealthFirst) ∧
    (run demoC3 (List.replicate 9 (Op.waterCmd 1))).user_water_counts 1 = 2250 ∧
    (water 1 demoC3after8).2 = Msg.waterLogged 2250 2275 989 := by
  refine ⟨(water_requires_profile_and_adds_250 2 initState).1 rfl, by decide, ?_⟩
  have h := ((water_requires_profile_and_adds_250 1 demoC3after8).2
    ⟨170, 65, 2275⟩ (by decide)).2.2.2.2
  have hc : demoC3after8.user_water_counts 1 + 250 = 2250 := by decide
  rw [hc] at h
  rw [show (⟨170, 65, 2275⟩ : Profile).daily_target = (2275 : ℚ) from rfl] at h
  have hfmt : formatOneDecimal (((2250 : Int) : ℚ) / 2275 * 100) = 989 :=
    formatOneDecimal_eq_of_bounds _ 989 (by norm_num) (by norm_num) (by norm_num)
  rw [hfmt] at h
  exact h

/-- C4: evidence against the claim that every string not in strict
`YYYY-MM-DD` shape is rejected: the parser used by `setdate` accepts
`"2024-5-1"` (single-digit month and day), stores 2024-05-01 for the user
and replies with the confirmation, not with a validation error — even though
the bot's own `/help` text calls `2024-5-1` wrong. -/
theorem setdate_accepts_nonpadded_input :
    strptimeYMD "2024-5-1" = some ⟨2024, 5, 1⟩ ∧
    (setdate 1 ["2024-5-1"] initState).2 = Msg.dateSet "2024-5-1" ∧
    dictGet 1 (setdate 1 ["2024-5-1"] initState).1.user_dates = some ⟨2024, 5, 1⟩ := by
  exact ⟨by decide, by decide, by decide⟩

/-- C4 (amended direction): for strings the parser does reject, `setdate`
replies with the validation error and leaves the date store — including any
previously stored date for the user — unchanged. -/
theorem setdate_rejects_unparsable (u : UserId) (st : BotState) (s : String)
    (hs : strptimeYMD s = none) :
    setdate u [s] st = (st, Msg.invalidDate) := by
  simp [setdate, hs]

theorem setdate_rejects_unparsable_witness :
    strptimeYMD "01-05-2024" = none ∧
    setdate 1 ["01-05-2024"] initState = (initState, Msg.invalidDate) := by
  exact ⟨by decide, setdate_rejects_unparsable 1 initState "01-05-2024" (by decide)⟩

/-- C5: every `sethealth` invocation whose arguments are missing, fail to
parse as numbers, or parse outside height [100,250] / weight [30,200]
replies with a user-visible error and leaves the state — all three stores —
unchanged. -/
theorem sethealth_rejects_invalid (u : UserId) (st : BotState) :
    (∀ args, args.length ≠ 2 → sethealth u args st = (st, Msg.askHealthArgs)) ∧
    (∀ a b, pyFloat a = none → sethealth u [a, b] st = (st, Msg.invalidHealthFormat)) ∧
    (∀ a b, pyFloat b = none → sethealth u [a, b] st = (st, Msg.invalidHealthFormat)) ∧
    (∀ a b hq wq, pyFloat a = some hq → pyFloat b = some wq →
      ¬(100 ≤ hq ∧ hq ≤ 250 ∧ 30 ≤ wq ∧ wq ≤ 200) →
      sethealth u [a, b] st = (st, Msg.invalidRange)) := by
  refine ⟨?_, ?_, ?_, ?_⟩
  · intro args hlen
    cases args with
    | nil => rfl
    | cons a t =>
        cases t with
        | nil => rfl
        | cons b t2 =>
            cases t2 with
            | nil => exact absurd rfl hlen
            | cons c t3 => rfl
  · intro a b hpa
    cases hpb : pyFloat b <;> simp [sethealth, hpa, hpb]
  · intro a b hpb
    cases hpa : pyFloat a <;> simp [sethealth, hpa, hpb]
  · intro a b hq wq hpa hpb hr
    simp only [sethealth, hpa, hpb]
    rw [if_neg hr]

theorem sethealth_rejects_invalid_witness :
    pyFloat "99" = some 99 ∧ pyFloat "201" = some 201 ∧ pyFloat "abc" = none ∧
    sethealth 1 ["99", "65"] initState = (initState, Msg.invalidRange) ∧
    sethealth 1 ["170", "201"] initState = (initState, Msg.invalidRange) ∧
    sethealth 1 ["abc", "65"] initState = (initState, Msg.invalidHealthFormat) ∧
    sethealth 1 ["170"] initState = (initState, Msg.askHealthArgs) := by
  have h99 : pyFloat "99" = some 99 :=
    (pyFloat_eq_of_parse "99" ⟨false, 99, 0, 0⟩ (by decide)).trans (by norm_num [partsVal])
  have h201 : pyFloat "201" = some 201 :=
    (pyFloat_eq_of_parse "201" ⟨false, 201, 0, 0⟩ (by decide)).trans (by norm_num [partsVal])
  have h170 : pyFloat "170" = some 170 :=
    (pyFloat_eq_of_parse "170" ⟨false, 170, 0, 0⟩ (by decide)).trans (by norm_num [partsVal])
  have h65 : pyFloat "65" = some 65 :=
    (pyFloat_eq_of_parse "65" ⟨false, 65, 0, 0⟩ (by decide)).trans (by norm_num [partsVal])
  have habc : pyFloat "abc" = none := pyFloat_none_of_parse "abc" (by decide)
  refine ⟨h99, h201, habc, ?_, ?_, ?_, ?_⟩
  · exact (sethealth_rejects_invalid 1 initState).2.2.2 "99" "65" 99 65 h99 h65 (by norm_num)
  · exact (sethealth_rejects_invalid 1 initState).2.2.2 "170" "201" 170 201 h170 h201 (by norm_num)
  · exact (sethealth_rejects_invalid 1 initState).2.1 "abc" "65" habc
  · exact (sethealth_rejects_invalid 1 initState).1 ["170"] (by decide)

/-- C6: a POST whose secret-token header differs from the configured bot
token gets a 403 and never reaches the dispatcher; with a matching header
and a valid update payload the dispatcher runs exactly once and the response
is an empty 200. -/
theorem handle_webhook_secret_check (t : String) (header : Option String)
    (payload : Option Unit) :
    (header ≠ some t → handle_webhook (some t) header payload = ⟨403, "", 0⟩) ∧
    (header = some t → ∀ p, payload = some p →
      handle_webhook (some t) header payload = ⟨200, "", 1⟩) := by
  constructor
  · intro h
    simp [handle_webhook, h]
  · intro h p hp
    subst h
    subst hp
    simp [handle_webhook]

theorem handle_webhook_secret_check_witness :
    handle_webhook (some "tok") (some "evil") (some ()) = ⟨403, "", 0⟩ ∧
    handle_webhook (some "tok") none (some ()) = ⟨403, "", 0⟩ ∧
    handle_webhook (some "tok") (some "tok") (some ()) = ⟨200, "", 1⟩ := by
  refine ⟨?_, ?_, ?_⟩
  · exact (handle_webhook_secret_check "tok" (some "evil") (some ())).1 (by decide)
  · exact (handle_webhook_secret_check "tok" none (some ())).1 (by decide)
  · exact (handle_webhook_secret_check "tok" (some "tok") (some ())).2 rfl () rfl

/-- C7: one daily-reminder firing sends every non-failing user with a stored
date the countdown phrasing for that user's date (days remaining when the
floored difference is non-negative, date-has-passed otherwise), and a
delivery failure is caught and logged per user, so it cannot suppress any
other user's message. -/
theorem daily_reminder_isolation (st : BotState) (now : Int) (fails : UserId → Bool) :
    (∀ u d, (u, d) ∈ st.user_dates → fails u = false →
      (u, reminderMsg d now) ∈ (daily_reminder now fails st).1) ∧
    (∀ u d, (u, d) ∈ st.user_dates → fails u = true →
      u ∈ (daily_reminder now fails st).2) ∧
    (∀ d, 0 ≤ Int.fdiv (dateTs d - now) 86400 →
      reminderMsg d now = Msg.dailyRemind (Int.fdiv (dateTs d - now) 86400) d) ∧
    (∀ d, Int.fdiv (dateTs d - now) 86400 < 0 → reminderMsg d now = Msg.dailyPassed) := by
  refine ⟨?_, ?_, ?_, ?_⟩
  · intro u d hm hf
    exact List.mem_filterMap.mpr ⟨(u, d), hm, by simp [hf]⟩
  · intro u d hm hf
    exact List.mem_filterMap.mpr ⟨(u, d), hm, by simp [hf]⟩
  · intro d h
    simp only [reminderMsg]
    rw [if_pos h]
  · intro d h
    simp only [reminderMsg]
    rw [if_neg (not_le.mpr h)]

theorem daily_reminder_isolation_witness :
    ((2 : UserId), Msg.dailyPassed) ∈
      (daily_reminder (dateTs ⟨2025, 1, 11⟩) failsOnly1 demoC7).1 ∧
    (1 : UserId) ∈ (daily_reminder (dateTs ⟨2025, 1, 11⟩) failsOnly1 demoC7).2 ∧
    reminderMsg ⟨2025, 1, 21⟩ (dateTs ⟨2025, 1, 11⟩) = Msg.dailyRemind 10 ⟨2025, 1, 21⟩ ∧
    reminderMsg ⟨2025, 1, 8⟩ (dateTs ⟨2025, 1, 11⟩) = Msg.dailyPassed := by
  have hpassed : reminderMsg ⟨2025, 1, 8⟩ (dateTs ⟨2025, 1, 11⟩) = Msg.dailyPassed := by
    decide
  refine ⟨?_, ?_, by decide, hpassed⟩
  · have h := (daily_reminder_isolation demoC7 (dateTs ⟨2025, 1, 11⟩) failsOnly1).1
      2 ⟨2025, 1, 8⟩ (by decide) (by decide)
    rw [hpassed] at h
    exact h
  · exact (daily_reminder_isolation demoC7 (dateTs ⟨2025, 1, 11⟩) failsOnly1).2.1
      1 ⟨2025, 1, 21⟩ (by decide) (by decide)

/-- C8: in one hydration-reminder firing (with no delivery failure for the
user), a user with a stored profile is sent the consumed/remaining message
exactly when the counter is strictly below the daily target; a user at or
above target receives no message at all. -/
theorem water_reminder_iff_below_target (st : BotState) (u : UserId) (info : Profile)
    (hnd : (st.user_water_info.map Prod.fst).Nodup)
    (hm : (u, info) ∈ st.user_water_info)
    (fails : UserId → Bool) (hf : fails u = false) :
    ((st.user_water_counts u : ℚ) < info.daily_target →
      (u, Msg.waterRemind (st.user_water_counts u)
        (info.daily_target - (st.user_water_counts u : ℚ))) ∈ (water_reminder fails st).1) ∧
    (info.daily_target ≤ (st.user_water_counts u : ℚ) →
      ∀ m, (u, m) ∉ (water_reminder fails st).1) := by
  constructor
  · intro hlt
    refine List.mem_filterMap.mpr ⟨(u, info), hm, ?_⟩
    simp [hlt, hf]
  · intro hge m hmem
    rcases List.mem_filterMap.mp hmem with ⟨p, hp, heq⟩
    obtain ⟨pu, pinfo⟩ := p
    by_cases hc : (st.user_water_counts pu : ℚ) < pinfo.daily_target
    · by_cases hfp : fails pu = true
      · simp [hc, hfp] at heq
      · rw [Bool.not_eq_true] at hfp
        simp [hc, hfp] at heq
        obtain ⟨h1, h2⟩ := heq
        subst h1
        have hpi : pinfo = info := assoc_value_unique hnd hp hm
        subst hpi
        exact absurd hc (not_lt.mpr hge)
    · simp [hc] at heq

theorem water_reminder_iff_below_target_witness :
    ((1 : UserId), Msg.waterRemind 2250 25) ∈ (water_reminder failsNone demoC8).1 ∧
    (∀ m, ((2 : UserId), m) ∉ (water_reminder failsNone demoC8).1) := by
  constructor
  · have h := (water_reminder_iff_below_target demoC8 1 ⟨170, 65, 2275⟩
      (by decide) (by decide) failsNone rfl).1
      (by show ((2250 : Int) : ℚ) < (2275 : ℚ); norm_num)
    rw [show demoC8.user_water_counts 1 = (2250 : Int) from rfl] at h
    rw [show (⟨170, 65, 2275⟩ : Profile).daily_target = (2275 : ℚ) from rfl] at h
    rw [show (2275 : ℚ) - ((2250 : Int) : ℚ) = 25 by norm_num] at h
    exact h
  · intro m
    exact (water_reminder_iff_below_target demoC8 2 ⟨170, 65, 2275⟩
      (by decide) (by decide) failsNone rfl).2
      (by show (2275 : ℚ) ≤ ((2275 : Int) : ℚ); norm_num) m

theorem counts_step_cases (st : BotState) (op : Op) (v : UserId) :
    (step st op).user_water_counts v = st.user_water_counts v ∨
    ((step st op).user_water_counts v = 0 ∧
      ∃ args, op = Op.sethealthCmd v args ∧ sethealthOk args = true) ∨
    ((step st op).user_water_counts v = st.user_water_counts v + 250 ∧
      op = Op.waterCmd v ∧ dictGet v st.user_water_info ≠ none) := by
  cases op with
  | startCmd u => exact Or.inl rfl
  | helpCmd u => exact Or.inl rfl
  | countdownCmd u now => exact Or.inl rfl
  | dailyJob now fails => exact Or.inl rfl
  | waterJob fails => exact Or.inl rfl
  | setdateCmd u args => exact Or.inl (congrFun (setdate_fst_counts u args st) v)
  | sethealthCmd u args =>
      cases args with
      | nil => exact Or.inl rfl
      | cons a t =>
          cases t with
          | nil => exact Or.inl rfl
          | cons b t2 =>
              cases t2 with
              | cons c t3 => exact Or.inl rfl
              | nil =>
                  cases hpa : pyFloat a with
                  | none => exact Or.inl (by simp [step, sethealth, hpa])
                  | some hq =>
                      cases hpb : pyFloat b with
                      | none => exact Or.inl (by simp [step, sethealth, hpa, hpb])
                      | some wq =>
                          by_cases hr : 100 ≤ hq ∧ hq ≤ 250 ∧ 30 ≤ wq ∧ wq ≤ 200
                          · by_cases hv : v = u
                            · subst hv
                              refine Or.inr (Or.inl ⟨?_, [a, b], rfl, ?_⟩)
                              · simp only [step, sethealth, hpa, hpb]
                                rw [if_pos hr]
                                simp
                              · simp only [sethealthOk, hpa, hpb]
                                exact decide_eq_true hr
                            · refine Or.inl ?_
                              simp only [step, sethealth, hpa, hpb]
                              rw [if_pos hr]
                              simp [hv]
                          · refine Or.inl ?_
                            simp only [step, sethealth, hpa, hpb]
                            rw [if_neg hr]
  | waterCmd u =>
      cases hinfo : dictGet u st.user_water_info with
      | none => exact Or.inl (by simp [step, water, hinfo])
      | some info =>
          by_cases hv : v = u
          · subst hv
            refine Or.inr (Or.inr ⟨?_, rfl, ?_⟩)
            · simp [step, water, hinfo]
            · rw [hinfo]
              exact fun hcontra => Option.noConfusion hcontra
          · refine Or.inl ?_
            simp [step, water, hinfo, hv]

theorem counts_step_nonneg (st : BotState) (op : Op)
    (h : ∀ v, 0 ≤ st.user_water_counts v) (v : UserId) :
    0 ≤ (step st op).user_water_counts v := by
  rcases counts_step_cases st op v with hc | ⟨hc, -⟩ | ⟨hc, -⟩
  · rw [hc]
    exact h v
  · rw [hc]
  · rw [hc]
    have hv := h v
    omega

theorem run_counts_nonneg (ops : List Op) :
    ∀ st : BotState, (∀ v, 0 ≤ st.user_water_counts v) →
      ∀ v, 0 ≤ (run st ops).user_water_counts v := by
  induction ops with
  | nil => intro st h v; exact h v
  | cons op t ih => intro st h v; exact ih (step st op) (counts_step_nonneg st op h) v

/-- C9: starting from any state with non-negative counters, the hydration
counter stays non-negative under every sequence of operations; one step
either leaves a user's counter unchanged, sets it to 0 (and then the step is
a successful `sethealth` by that user), or adds exactly 250 (and then the
step is a `water` by that user with a stored profile); reminder firings
never change any counter. -/
theorem water_counter_invariant (st : BotState)
    (h0 : ∀ v, 0 ≤ st.user_water_counts v) :
    (∀ ops v, 0 ≤ (run st ops).user_water_counts v) ∧
    (∀ op v,
      (step st op).user_water_counts v = st.user_water_counts v ∨
      ((step st op).user_water_counts v = 0 ∧
        ∃ args, op = Op.sethealthCmd v args ∧ sethealthOk args = true) ∨
      ((step st op).user_water_counts v = st.user_water_counts v + 250 ∧
        op = Op.waterCmd v ∧ dictGet v st.user_water_info ≠ none)) ∧
    (∀ now fails v,
      (step st (Op.dailyJob now fails)).user_water_counts v = st.user_water_counts v) ∧
    (∀ fails v,
      (step st (Op.waterJob fails)).user_water_counts v = st.user_water_counts v) := by
  refine ⟨fun ops v => run_counts_nonneg ops st h0 v,
    fun op v => counts_step_cases st op v, fun now fails v => rfl, fun fails v => rfl⟩

theorem water_counter_invariant_witness :
    (∀ v, 0 ≤ initState.user_water_counts v) ∧
    (∀ ops v, 0 ≤ (run initState ops).user_water_counts v) :=
  ⟨fun _ => le_refl 0, (water_counter_invariant initState (fun _ => le_refl 0)).1⟩

/-- C10: with `BOT_TOKEN` unset, a POST with no secret-token header passes
the `!=` check (`None != None` is false), so the handler does not return 403
and goes on to deserialize the body and dispatch it: a valid update is
processed once with an empty 200. -/
theorem handle_webhook_accepts_when_unconfigured :
    handle_webhook none none (some ()) = ⟨200, "", 1⟩ := by
  rfl
